import Mathlib

/-!
Verification of the queue/statistics core of the Smart-Queue-Manager
repository. The Python source maintains two parallel stores: a key-value
store (`queue_manager.py` over `replit_db.py`) and a relational store
(`app.py` route handlers over `models.py`). Both are embedded below:
pure Lean functions over explicit state records, with machine times as
natural numbers (seconds) and averages as exact rationals.
-/

namespace SmartQueue

/-- Statistics record, one per business (fields of `QueueStatistics` in
`models.py` and of the stats dict in `queue_manager.py`). -/
structure Stats where
  total_served : Nat
  avg_wait_time : ℚ
  peak_queue_length : Nat
  current_queue_length : Nat
deriving DecidableEq, Repr

/-- The all-zero statistics record used at initialization. -/
def Stats.zero : Stats :=
  { total_served := 0, avg_wait_time := 0, peak_queue_length := 0, current_queue_length := 0 }

/-- A key-value store queue item (the dict stored under `queue_item_<id>`
in `queue_manager.py`). `timestamp` is `none` when the stored string is
not ISO-parseable (then `datetime.fromisoformat` raises), `some t` for a
well-formed time `t` in seconds. -/
structure KvItem where
  name : String
  phone : String
  details : String
  priority : Int
  status : String
  timestamp : Option Nat
  completed_at : Option Nat
deriving DecidableEq, Repr

/-- A history record (the dict appended to `queue_history`); the reset
marker appended by `reset_queue` lacks the wait/completion fields, hence
the `Option`s. -/
structure HistRec where
  id : String
  name : String
  wait_time : Option ℚ
  timestamp : Option Nat
  completed_at : Option Nat
deriving DecidableEq, Repr

/-- Order on the (optional) creation timestamps as the Python sort key
`x.get('timestamp', '')` orders them: a missing timestamp (empty string)
sorts before every well-formed one, well-formed ones chronologically. -/
def tsLE : Option Nat → Option Nat → Prop
  | none, _ => True
  | some _, none => False
  | some a, some b => a ≤ b

instance tsLE.dec : (a b : Option Nat) → Decidable (tsLE a b)
  | none, _ => isTrue trivial
  | some _, none => isFalse (fun h => h)
  | some a, some b => inferInstanceAs (Decidable (a ≤ b))

theorem tsLE_total (a b : Option Nat) : tsLE a b ∨ tsLE b a := by
  cases a <;> cases b <;> simp [tsLE]
  omega

theorem tsLE_trans {a b c : Option Nat} (h1 : tsLE a b) (h2 : tsLE b c) : tsLE a c := by
  cases a <;> cases b <;> cases c <;> simp_all [tsLE]
  omega

/-- The comparator realized by the Python sort key
`(-x.get('priority', 0), x.get('timestamp', ''))` in `get_all_items`:
priority descending, then creation timestamp ascending. -/
def queueLE (a b : KvItem) : Prop :=
  b.priority < a.priority ∨ (a.priority = b.priority ∧ tsLE a.timestamp b.timestamp)

instance queueLE.dec : DecidableRel queueLE := fun a b => by
  unfold queueLE; infer_instance

instance queueLE.total : IsTotal KvItem queueLE where
  total a b := by
    unfold queueLE
    rcases lt_trichotomy a.priority b.priority with h | h | h
    · exact Or.inr (Or.inl h)
    · rcases tsLE_total a.timestamp b.timestamp with h' | h'
      · exact Or.inl (Or.inr ⟨h, h'⟩)
      · exact Or.inr (Or.inr ⟨h.symm, h'⟩)
    · exact Or.inl (Or.inl h)

instance queueLE.trans : IsTrans KvItem queueLE where
  trans a b c h1 h2 := by
    unfold queueLE at *
    rcases h1 with h1 | ⟨h1, h1'⟩ <;> rcases h2 with h2 | ⟨h2, h2'⟩
    · exact Or.inl (h2.trans h1)
    · exact Or.inl (h2 ▸ h1)
    · exact Or.inl (h1 ▸ h2)
    · exact Or.inr ⟨h1.trans h2, tsLE_trans h1' h2'⟩

/-- Embedding of `QueueManager.get_all_items` (`queue_manager.py` lines
36-57), applied to the result of the store's scan for the business's key
space: keep every stored item whose status is not `completed`, then sort
by priority descending and timestamp ascending (Python `sorted` with key
`(-priority, timestamp)`). -/
def get_all_items (store : List (String × KvItem)) : List KvItem :=
  List.insertionSort queueLE ((store.filter (fun kv => kv.2.status != "completed")).map Prod.snd)

/-- State of the key-value store slice owned by the queue manager: the
item bindings for one key space, the history list and the stats dict. -/
structure KvState where
  items : List (String × KvItem)
  history : List HistRec
  stats : Stats
deriving DecidableEq, Repr

/-- Embedding of `db.get` on the item key space. -/
def dbGet (store : List (String × KvItem)) (key : String) : Option KvItem :=
  (store.find? (fun kv => kv.1 == key)).map Prod.snd

/-- Embedding of `db.set`: overwrite the binding when the key exists,
else add it. -/
def dbSet : List (String × KvItem) → String → KvItem → List (String × KvItem)
  | [], key, v => [(key, v)]
  | kv :: rest, key, v => if kv.1 = key then (key, v) :: rest else kv :: dbSet rest key v

/-- Embedding of `db.delete`. -/
def dbDelete : List (String × KvItem) → String → List (String × KvItem)
  | [], _ => []
  | kv :: rest, key => if kv.1 = key then rest else kv :: dbDelete rest key

/-- Length recomputation used by the key-value statistics updates:
`len(self.get_all_items())`. -/
def currentLen (store : List (String × KvItem)) : Nat :=
  (get_all_items store).length

/-- Wait time in minutes: `(completed_at - timestamp).total_seconds() / 60`
with both instants in seconds. -/
def waitMinutes (t0 now : Nat) : ℚ :=
  (((now : ℤ) - (t0 : ℤ) : ℤ) : ℚ) / 60

/-- Average update on the key-value path (`queue_manager.py` lines
199-206), guarded by `total_served > 1`; `ts` is total_served after the
increment. -/
def kvAvgStep (avg : ℚ) (ts : Nat) (w : ℚ) : ℚ :=
  if 1 < ts then (avg * ((ts : ℚ) - 1) + w) / (ts : ℚ) else w

/-- Average update on the SQL path (`app.py` lines 722-726), guarded by
`avg_wait_time == 0` instead of the served count. -/
def sqlAvgStep (avg : ℚ) (ts : Nat) (w : ℚ) : ℚ :=
  if avg = 0 then w else (avg * ((ts : ℚ) - 1) + w) / (ts : ℚ)

/-- History append with the retention check of `complete_item`
(`queue_manager.py` lines 187-190): when more than 100 records are
present, keep only the last 99 (`history[-99:]`) before appending the
new record. -/
def histAppend (h : List HistRec) (x : HistRec) : List HistRec :=
  (if 100 < h.length then h.drop (h.length - 99) else h) ++ [x]

/-- Embedding of `QueueManager.add_item` (lines 59-98) for one business's
key space: store the new item under a fresh key, then recompute
current_queue_length from the live items and raise the peak if exceeded;
total_served and avg_wait_time are untouched. -/
def add_item (s : KvState) (key : String) (item : KvItem) : KvState :=
  let items1 := dbSet s.items key item
  let cur := currentLen items1
  { s with
      items := items1,
      stats := { s.stats with
                   current_queue_length := cur,
                   peak_queue_length :=
                     if s.stats.peak_queue_length < cur then cur
                     else s.stats.peak_queue_length } }

/-- The update dict passed to `QueueManager.update_item`: each field of
the stored item optionally overwritten. -/
structure UpdData where
  name : Option String
  phone : Option String
  details : Option String
  priority : Option Int
  status : Option String
  timestamp : Option (Option Nat)
  completed_at : Option (Option Nat)
deriving Repr

/-- Field-by-field overwrite done by the `for field, value in
data.items()` loop of `update_item`. -/
def applyUpd (it : KvItem) (d : UpdData) : KvItem :=
  { name := d.name.getD it.name,
    phone := d.phone.getD it.phone,
    details := d.details.getD it.details,
    priority := d.priority.getD it.priority,
    status := d.status.getD it.status,
    timestamp := d.timestamp.getD it.timestamp,
    completed_at := d.completed_at.getD it.completed_at }

/-- Embedding of `QueueManager.update_item` (lines 100-123): only
existence of the item is checked; every provided field is overwritten
regardless of the item's status. -/
def update_item (s : KvState) (id : String) (d : UpdData) : KvState × Bool :=
  match dbGet s.items id with
  | none => (s, false)
  | some it => ({ s with items := dbSet s.items id (applyUpd it d) }, true)

/-- Embedding of `QueueManager.remove_item` (lines 125-149): delete the
item's key if present and recompute current_queue_length. -/
def remove_item (s : KvState) (id : String) : KvState × Bool :=
  match dbGet s.items id with
  | none => (s, false)
  | some _ =>
      let items1 := dbDelete s.items id
      ({ s with
           items := items1,
           stats := { s.stats with current_queue_length := currentLen items1 } }, true)

/-- Embedding of `QueueManager.complete_item` (lines 151-215). Only
existence of the item is checked, so an already-completed item is
completed again. The status write is persisted first; if the stored
timestamp is not ISO-parseable, `datetime.fromisoformat` raises inside
the try block, the history and statistics updates are skipped (the
exception is logged and swallowed) and True is still returned. -/
def complete_item (s : KvState) (id : String) (now : Nat) : KvState × Bool :=
  match dbGet s.items id with
  | none => (s, false)
  | some item =>
      let item1 := { item with status := "completed", completed_at := some now }
      let items1 := dbSet s.items id item1
      match item.timestamp with
      | none => ({ s with items := items1 }, true)
      | some t0 =>
          let w := waitMinutes t0 now
          let hist1 := histAppend s.history
            { id := id, name := item.name, wait_time := some w,
              timestamp := some t0, completed_at := some now }
          let ts := s.stats.total_served + 1
          ({ items := items1,
             history := hist1,
             stats := { total_served := ts,
                        avg_wait_time := kvAvgStep s.stats.avg_wait_time ts w,
                        peak_queue_length := s.stats.peak_queue_length,
                        current_queue_length := currentLen items1 } }, true)

/-- Embedding of `QueueManager.reset_queue` (lines 265-298): delete every
queue item, overwrite the statistics with all zeros (peak_queue_length
and total_served included, with no opt-in), and append a reset marker to
the history (no trimming on this path). -/
def reset_queue (s : KvState) (now : Nat) : KvState :=
  { items := [],
    history := s.history ++
      [{ id := "reset", name := "Queue Reset",
         wait_time := none, timestamp := some now, completed_at := none }],
    stats := Stats.zero }

/-- Embedding of the key-value statistics reset inside the per-business
branch of the reset route (`app.py` lines 828-836): total_served is kept
unless the caller passes reset_stats, while avg_wait_time,
peak_queue_length and current_queue_length are all zeroed. -/
def resetKvBizStats (st : Stats) (resetStats : Bool) : Stats :=
  { total_served := if resetStats then 0 else st.total_served,
    avg_wait_time := 0, peak_queue_length := 0, current_queue_length := 0 }

/-- A relational QueueItem row (`models.py`) for a single business. -/
structure Entry where
  id : Nat
  name : String
  phone : String
  details : String
  priority : Int
  status : String
  timestamp : Nat
  completed_at : Option Nat
deriving DecidableEq, Repr

/-- The SQL-path state for one business: its queue_items rows plus its
QueueStatistics row. -/
structure SqlState where
  items : List Entry
  stats : Stats
deriving DecidableEq, Repr

/-- Number of rows with status waiting. -/
def waitingCount (items : List Entry) : Nat :=
  (items.filter (fun e => e.status == "waiting")).length

/-- The core consistency invariant of the statistics engine: the stored
current_queue_length equals the live number of waiting rows. -/
def consistent (s : SqlState) : Prop :=
  s.stats.current_queue_length = waitingCount s.items

instance consistent.dec (s : SqlState) : Decidable (consistent s) :=
  inferInstanceAs (Decidable (s.stats.current_queue_length = waitingCount s.items))

/-- Embedding of the SQL mutation of join_queue (`app.py` lines 336-372,
likewise the SQL branch of add_to_queue): insert a fresh waiting row,
increment current_queue_length and raise the peak if exceeded. Lazy
creation of a missing statistics row coincides with this update applied
to the all-zero record. -/
def joinSql (s : SqlState) (id : Nat) (name phone details : String) (pr : Int) (ts : Nat) :
    SqlState :=
  let cur := s.stats.current_queue_length + 1
  { items := s.items ++
      [{ id := id, name := name, phone := phone, details := details,
         priority := pr, status := "waiting", timestamp := ts, completed_at := none }],
    stats := { s.stats with
                 current_queue_length := cur,
                 peak_queue_length :=
                   if s.stats.peak_queue_length < cur then cur
                   else s.stats.peak_queue_length } }

/-- Overwrite of the row fetched by primary key: the first row with the
given id is stamped completed. -/
def completeFirst : List Entry → Nat → Nat → List Entry
  | [], _, _ => []
  | e :: rest, id, now =>
      if e.id = id then { e with status := "completed", completed_at := some now } :: rest
      else e :: completeFirst rest id now

/-- Embedding of the SQL branch of complete_queue_item (`app.py` lines
685-734): fetch the row by primary key; if present (whatever its status)
stamp it completed, decrement current_queue_length with a floor at 0
(`max(0, x - 1)`, which is truncated subtraction on Nat), increment
total_served and update the average with the `avg == 0` guard. If absent
the SQL state is unchanged (the route falls back to the key-value
store). -/
def completeSql (s : SqlState) (id : Nat) (now : Nat) : SqlState :=
  match s.items.find? (fun e => e.id == id) with
  | none => s
  | some e =>
      let w := waitMinutes e.timestamp now
      let ts := s.stats.total_served + 1
      { items := completeFirst s.items id now,
        stats := { total_served := ts,
                   avg_wait_time := sqlAvgStep s.stats.avg_wait_time ts w,
                   peak_queue_length := s.stats.peak_queue_length,
                   current_queue_length := s.stats.current_queue_length - 1 } }

/-- The remove route (`app.py` lines 663-673) calls only the key-value
QueueManager.remove_item; the SQL rows and the SQL statistics row are
untouched. -/
def removeSql (s : SqlState) (_id : Nat) : SqlState := s

/-- One request against the SQL state of a single business. -/
inductive QOp where
  | join (id : Nat) (name phone details : String) (pr : Int) (ts : Nat)
  | complete (id : Nat) (now : Nat)
  | remove (id : Nat)
deriving Repr

/-- Effect of one request on the SQL state. -/
def applyOp (s : SqlState) : QOp → SqlState
  | .join id n p d pr ts => joinSql s id n p d pr ts
  | .complete id now => completeSql s id now
  | .remove id => removeSql s id

/-- Effect of a request sequence on the SQL state. -/
def runOps (s : SqlState) : List QOp → SqlState
  | [] => s
  | op :: rest => runOps (applyOp s op) rest

/-- The target of a complete request is acceptable when it is absent (the
route falls through) or still waiting; completing an already-completed
row is the case that breaks the invariant. -/
def completeTargetOk (s : SqlState) (id : Nat) : Bool :=
  match s.items.find? (fun e => e.id == id) with
  | none => true
  | some e => e.status == "waiting"

/-- Acceptability of one request in the current state. -/
def opOk (s : SqlState) : QOp → Bool
  | .complete id _ => completeTargetOk s id
  | _ => true

/-- Acceptability of every request of the sequence in the state it runs
against. -/
def opsOk : SqlState → List QOp → Bool
  | _, [] => true
  | s, op :: rest => opOk s op && opsOk (applyOp s op) rest

/-- Embedding of the SQL effect of the per-business branch of the reset
route (`app.py` lines 779-815): every waiting row becomes completed and
current_queue_length is zeroed; peak_queue_length, total_served and
avg_wait_time are untouched (even when the caller asks for reset_stats).
-/
def resetSqlBiz (s : SqlState) (now : Nat) : SqlState :=
  { items := s.items.map (fun e =>
      if e.status = "waiting"
      then { e with status := "completed", completed_at := some now } else e),
    stats := { s.stats with current_queue_length := 0 } }

/-- Embedding of the validation of the form path join_queue (`app.py`
lines 326-349): a missing or empty name or phone is rejected (`if not
name or not phone`) before any state change; a missing form value is
modelled as the empty string since both are falsy. -/
def join_queue (s : SqlState) (id : Nat) (name phone details : String) (ts : Nat) :
    SqlState × Bool :=
  if name = "" ∨ phone = "" then (s, false)
  else (joinSql s id name phone details 3 ts, true)

/-- Embedding of the validation of the API path add_to_queue (`app.py`
lines 551-607) with an existing business: only a missing name key is
rejected (`'name' not in data`); an empty-string name passes the check
and the row is inserted. -/
def add_to_queue (s : SqlState) (id : Nat) (nameField : Option String)
    (phone details : String) (pr : Int) (ts : Nat) : SqlState × Bool :=
  match nameField with
  | none => (s, false)
  | some name => (joinSql s id name phone details pr ts, true)

/-- Embedding of the PostgreSQL branch of check_position (`app.py` lines
901-949): find the first waiting row with the phone number, then count
the waiting rows with a strictly earlier timestamp; the position is that
count plus one. Priority is not consulted. -/
def check_position (items : List Entry) (phone : String) : Option Nat :=
  match items.find? (fun e => e.phone == phone && e.status == "waiting") with
  | none => none
  | some e =>
      some ((items.filter (fun x =>
        x.status == "waiting" && decide (x.timestamp < e.timestamp))).length + 1)

/-- Strictly-before relation of the priority-descending,
timestamp-ascending ordering used by the waiting-list query: higher
priority first, earlier arrival first within a priority. -/
def sortsBefore (a b : Entry) : Prop :=
  b.priority < a.priority ∨ (a.priority = b.priority ∧ a.timestamp < b.timestamp)

instance sortsBefore.dec : DecidableRel sortsBefore := fun a b => by
  unfold sortsBefore; infer_instance

/-- Fold of the key-value average update over a sequence of wait times;
the second argument is the served count so far. -/
def kvAvgAux : ℚ → Nat → List ℚ → ℚ
  | avg, _, [] => avg
  | avg, n, w :: ws => kvAvgAux (kvAvgStep avg (n + 1) w) (n + 1) ws

/-- avg_wait_time after completions with the given wait times on the
key-value path, starting from the freshly initialized statistics. -/
def kvAvg (ws : List ℚ) : ℚ := kvAvgAux 0 0 ws

/-- Fold of the SQL average update over a sequence of wait times. -/
def sqlAvgAux : ℚ → Nat → List ℚ → ℚ
  | avg, _, [] => avg
  | avg, n, w :: ws => sqlAvgAux (sqlAvgStep avg (n + 1) w) (n + 1) ws

/-- avg_wait_time after completions with the given wait times on the SQL
path, starting from the freshly initialized statistics row. -/
def sqlAvg (ws : List ℚ) : ℚ := sqlAvgAux 0 0 ws

/-- The initial SQL state of a business that starts with no rows and the
all-zero statistics record (a consistent state). -/
def sqlInit : SqlState := { items := [], stats := Stats.zero }

/-- Position prescribed by the spec ordering, defined from the spec's
words for comparison with the code: one plus the number of waiting
entries that sort strictly before the entry under priority-descending,
timestamp-ascending order. -/
def specPosition (items : List Entry) (e : Entry) : Nat :=
  (items.filter (fun x => x.status == "waiting" && decide (sortsBefore x e))).length + 1

/-- Arrival-order strictly-before relation actually used by
check_position: strictly earlier creation timestamp, regardless of
priority. -/
def arrivesBefore (a b : Entry) : Prop := a.timestamp < b.timestamp

instance arrivesBefore.dec : DecidableRel arrivesBefore := fun a b =>
  inferInstanceAs (Decidable (a.timestamp < b.timestamp))

section Lemmas

/-- A set binding is what a get on the same key returns. -/
theorem dbGet_dbSet (l : List (String × KvItem)) (k : String) (v : KvItem) :
    dbGet (dbSet l k v) k = some v := by
  induction l with
  | nil => simp [dbSet, dbGet, List.find?]
  | cons kv rest ih =>
    by_cases h : kv.1 = k
    · simp [dbSet, h, dbGet, List.find?]
    · simpa [dbSet, h, dbGet, List.find?, h] using ih

/-- Appending a waiting row raises the waiting count by one. -/
theorem waitingCount_append_waiting (l : List Entry) (e : Entry)
    (he : e.status = "waiting") : waitingCount (l ++ [e]) = waitingCount l + 1 := by
  simp [waitingCount, List.filter_append, he]

/-- Stamping the first row with a given id completed lowers the waiting
count by exactly one, provided that row is waiting. -/
theorem waitingCount_completeFirst (l : List Entry) (id now : Nat) (e : Entry)
    (hf : l.find? (fun x => x.id == id) = some e) (hw : e.status = "waiting") :
    waitingCount (completeFirst l id now) + 1 = waitingCount l := by
  induction l with
  | nil => simp [List.find?] at hf
  | cons a l ih =>
    by_cases h : a.id = id
    · have hb : (a.id == id) = true := by simp [h]
      have ha : a = e := by simpa [List.find?, hb] using hf
      subst ha
      simp [completeFirst, h, waitingCount, List.filter_cons, hw]
    · have hb : (a.id == id) = false := by simp [h]
      have hf' : l.find? (fun x => x.id == id) = some e := by
        simpa [List.find?, hb] using hf
      have hrec := ih hf'
      simp only [completeFirst, if_neg h, waitingCount, List.filter_cons]
      simp only [waitingCount] at hrec
      cases hs : (a.status == "waiting") with
      | false => simpa [hs] using hrec
      | true =>
        simp only [hs, if_true, List.length_cons]
        omega

/-- One acceptable request preserves the consistency invariant. -/
theorem consistent_applyOp (s : SqlState) (op : QOp)
    (hc : consistent s) (hok : opOk s op = true) : consistent (applyOp s op) := by
  cases op with
  | join id n p d pr ts =>
    simp only [applyOp, joinSql, consistent] at *
    rw [waitingCount_append_waiting _ _ rfl, ← hc]
  | remove id => exact hc
  | complete id now =>
    simp only [applyOp, completeSql]
    cases hf : s.items.find? (fun e => e.id == id) with
    | none => exact hc
    | some e =>
      have hw : e.status = "waiting" := by
        simp only [opOk, completeTargetOk, hf] at hok
        simpa using hok
      have hcf := waitingCount_completeFirst s.items id now e hf hw
      simp only [consistent] at *
      omega

/-- A sequence of acceptable requests preserves the consistency
invariant. -/
theorem consistent_runOps (ops : List QOp) : ∀ (s : SqlState),
    consistent s → opsOk s ops = true → consistent (runOps s ops) := by
  induction ops with
  | nil => intro s hc _; exact hc
  | cons op rest ih =>
    intro s hc hok
    simp only [opsOk, Bool.and_eq_true] at hok
    exact ih (applyOp s op) (consistent_applyOp s op hc hok.1) hok.2

/-- Exact value of the key-value average fold: starting from the average
of `sum` over `n ≥ 1` completions, processing further wait times yields
the grand mean. -/
theorem kvAvgAux_eq (ws : List ℚ) : ∀ (n : Nat) (sum : ℚ), 1 ≤ n →
    kvAvgAux (sum / n) n ws = (sum + ws.sum) / (n + ws.length) := by
  induction ws with
  | nil => intro n sum _; simp [kvAvgAux]
  | cons w ws ih =>
    intro n sum hn
    have hn0 : (n : ℚ) ≠ 0 := by positivity
    have hstep : kvAvgStep (sum / n) (n + 1) w = (sum + w) / ((n : ℚ) + 1) := by
      rw [kvAvgStep, if_pos (by omega)]
      push_cast
      field_simp
    rw [kvAvgAux, hstep]
    have h1 : ((n + 1 : Nat) : ℚ) = (n : ℚ) + 1 := by push_cast; ring
    have := ih (n + 1) (sum + w) (by omega)
    rw [h1] at this
    rw [this]
    simp only [List.sum_cons, List.length_cons]
    push_cast
    ring_nf

/-- Exact value of the SQL average fold under the hypotheses that keep
every intermediate average nonzero: positive running sum and nonnegative
further wait times. -/
theorem sqlAvgAux_eq (ws : List ℚ) : ∀ (n : Nat) (sum : ℚ), 1 ≤ n → 0 < sum →
    (∀ x ∈ ws, 0 ≤ x) →
    sqlAvgAux (sum / n) n ws = (sum + ws.sum) / (n + ws.length) := by
  induction ws with
  | nil => intro n sum _ _ _; simp [sqlAvgAux]
  | cons w ws ih =>
    intro n sum hn hs hws
    have hn0 : (0 : ℚ) < (n : ℚ) := by positivity
    have havg : sum / (n : ℚ) ≠ 0 := by positivity
    have hstep : sqlAvgStep (sum / n) (n + 1) w = (sum + w) / ((n : ℚ) + 1) := by
      rw [sqlAvgStep, if_neg havg]
      push_cast
      field_simp
    rw [sqlAvgAux, hstep]
    have h1 : ((n + 1 : Nat) : ℚ) = (n : ℚ) + 1 := by push_cast; ring
    have hw : (0 : ℚ) ≤ w := hws w (List.mem_cons_self w ws)
    have := ih (n + 1) (sum + w) (by omega) (by linarith)
      (fun x hx => hws x (List.mem_cons_of_mem w hx))
    rw [h1] at this
    rw [this]
    simp only [List.sum_cons, List.length_cons]
    push_cast
    ring_nf

end Lemmas

/-- Requests exhibiting the statistics drift: two joins, then the same
row completed twice (the route never checks the row's status). -/
def c1ops : List QOp :=
  [QOp.join 1 "Alice" "p1" "" 3 10, QOp.join 2 "Bob" "p2" "" 3 20,
   QOp.complete 1 30, QOp.complete 1 40]

/-- C1 counterexample: starting from the consistent empty state, joining
two customers and completing the first one twice leaves
current_queue_length at 0 while one waiting row remains — the claimed
invariant fails for this request sequence. -/
theorem c1_counterexample : ¬ consistent (runOps sqlInit c1ops) := by decide

/-- C1 (amended): starting from a consistent state, a sequence of join,
remove and complete requests keeps current_queue_length equal to the
exact number of waiting rows provided every complete targets a row that
is absent or still waiting; a complete aimed at an already-completed row
(which the route accepts) is what breaks the equality. -/
theorem c1_queue_length_invariant (s : SqlState) (ops : List QOp)
    (hc : consistent s) (hok : opsOk s ops = true) :
    consistent (runOps s ops) :=
  consistent_runOps ops s hc hok

/-- C1 witness: the amended invariant applied to a concrete join
followed by a complete of that waiting row. -/
theorem c1_queue_length_invariant_witness :
    consistent (runOps sqlInit [QOp.join 1 "A" "p" "" 3 0, QOp.complete 1 60]) :=
  c1_queue_length_invariant sqlInit
    [QOp.join 1 "A" "p" "" 3 0, QOp.complete 1 60] (by decide) (by decide)

/-- C2: get_all_items returns exactly the stored entries whose status is
not completed (as a permutation of that filtered store) and the returned
sequence is sorted by priority descending and, within equal priorities,
by creation timestamp ascending (the order queueLE). -/
theorem c2_get_all_items_ordering (store : List (String × KvItem)) :
    (get_all_items store).Perm
        ((store.filter (fun kv => kv.2.status != "completed")).map Prod.snd) ∧
      List.Sorted queueLE (get_all_items store) :=
  ⟨List.perm_insertionSort _ _, List.sorted_insertionSort _ _⟩

/-- C3 counterexample: on the SQL path the first-completion test is
`avg_wait_time == 0`, so after a zero wait time followed by a wait of 10
minutes the stored average is 10 while the arithmetic mean is 5 — exact
rational arithmetic, no floating-point tolerance can absorb it. -/
theorem c3_counterexample :
    sqlAvg [0, 10] = 10 ∧
      (([0, 10] : List ℚ).sum / (([0, 10] : List ℚ).length : ℚ)) = 5 ∧
      (10 : ℚ) ≠ 5 := by
  refine ⟨by norm_num [sqlAvg, sqlAvgAux, sqlAvgStep], by norm_num, by norm_num⟩

/-- C3 (amended): over exact rationals the incrementally maintained
average equals the arithmetic mean of the wait times on the key-value
path for every nonempty sequence; on the SQL path the avg == 0 guard
makes the equality hold only when no intermediate average is zero — in
particular whenever the first wait time is positive and the rest are
nonnegative. -/
theorem c3_incremental_average (w : ℚ) (ws : List ℚ) :
    kvAvg (w :: ws) = (w :: ws).sum / (((w :: ws).length : ℚ)) ∧
      (0 < w → (∀ x ∈ ws, 0 ≤ x) →
        sqlAvg (w :: ws) = (w :: ws).sum / (((w :: ws).length : ℚ))) := by
  constructor
  · have h0 : kvAvg (w :: ws) = kvAvgAux (w / ((1 : Nat) : ℚ)) 1 ws := by
      simp [kvAvg, kvAvgAux, kvAvgStep]
    rw [h0, kvAvgAux_eq ws 1 w (le_refl 1)]
    simp only [List.sum_cons, List.length_cons]
    push_cast
    ring_nf
  · intro hw hws
    have h0 : sqlAvg (w :: ws) = sqlAvgAux (w / ((1 : Nat) : ℚ)) 1 ws := by
      simp [sqlAvg, sqlAvgAux, sqlAvgStep]
    rw [h0, sqlAvgAux_eq ws 1 w (le_refl 1) hw hws]
    simp only [List.sum_cons, List.length_cons]
    push_cast
    ring_nf

/-- C3 witness: the amended equality applied to the wait times 1 and 3,
whose incremental averages on both paths equal the mean 2. -/
theorem c3_incremental_average_witness :
    kvAvg [1, 3] = ([1, 3] : List ℚ).sum / ((([1, 3] : List ℚ).length : ℚ)) ∧
      sqlAvg [1, 3] = ([1, 3] : List ℚ).sum / ((([1, 3] : List ℚ).length : ℚ)) :=
  ⟨(c3_incremental_average 1 [3]).1,
   (c3_incremental_average 1 [3]).2 (by norm_num)
     (by intro x hx; simp at hx; subst hx; norm_num)⟩

/-- A waiting low-priority early arrival. -/
def e4a : Entry :=
  { id := 1, name := "A", phone := "p1", details := "", priority := 1,
    status := "waiting", timestamp := 10, completed_at := none }

/-- A waiting high-priority later arrival. -/
def e4b : Entry :=
  { id := 2, name := "B", phone := "p2", details := "", priority := 5,
    status := "waiting", timestamp := 20, completed_at := none }

/-- C4 counterexample: for the high-priority later arrival the spec
ordering puts nobody strictly before it (position 1), but check_position
counts the earlier low-priority arrival and reports position 2 —
priority is ignored by the lookup. -/
theorem c4_counterexample :
    check_position [e4a, e4b] "p2" = some 2 ∧ specPosition [e4a, e4b] e4b = 1 := by
  refine ⟨by decide, by decide⟩

/-- C4 (amended): the position returned by the SQL lookup equals one plus
the number of waiting entries of the business that arrived strictly
earlier (timestamp order only); the priority component of the
waiting-list ordering is not consulted. -/
theorem c4_position_by_timestamp (items : List Entry) (phone : String) (e : Entry)
    (hf : items.find? (fun x => x.phone == phone && x.status == "waiting") = some e) :
    check_position items phone =
      some ((items.filter (fun x =>
        x.status == "waiting" && decide (arrivesBefore x e))).length + 1) := by
  unfold check_position
  rw [hf]
  rfl

/-- C4 witness: the amended position rule applied to the two-entry
business above. -/
theorem c4_position_by_timestamp_witness :
    check_position [e4a, e4b] "p2" =
      some (([e4a, e4b].filter (fun x =>
        x.status == "waiting" && decide (arrivesBefore x e4b))).length + 1) :=
  c4_position_by_timestamp [e4a, e4b] "p2" e4b (by decide)

/-- A store holding a single already-completed entry. -/
def kv5 : KvState :=
  { items := [("a", { name := "A", phone := "p", details := "", priority := 3,
                      status := "completed", timestamp := some 0, completed_at := some 5 })],
    history := [], stats := Stats.zero }

/-- C5 counterexample: completing an entry that is already completed
succeeds (True, not NotFound) and increments total_served again instead
of leaving the state unchanged. -/
theorem c5_counterexample :
    (complete_item kv5 "a" 10).2 = true ∧
      (complete_item kv5 "a" 10).1.stats.total_served = 1 ∧
      kv5.stats.total_served = 0 := by
  refine ⟨by decide, by decide, by decide⟩

/-- C5 (amended): complete_item fails exactly when the entry key is
absent, and then changes nothing; any present entry — already completed
or not — is stamped completed again and the call succeeds. -/
theorem c5_complete_notfound_only (s : KvState) (id : String) (now : Nat) :
    match dbGet s.items id with
    | none => complete_item s id now = (s, false)
    | some _ => (complete_item s id now).2 = true := by
  cases h : dbGet s.items id with
  | none => simp [complete_item, h]
  | some item => cases ht : item.timestamp <;> simp [complete_item, h, ht]

/-- A waiting entry whose stored timestamp string is not ISO-parseable. -/
def item6 : KvItem :=
  { name := "B", phone := "", details := "", priority := 3,
    status := "waiting", timestamp := none, completed_at := none }

/-- A store holding only that entry. -/
def kv6 : KvState :=
  { items := [("b", item6)], history := [], stats := Stats.zero }

/-- C6 counterexample: completing the entry with the unparseable
timestamp reports success and marks it completed, yet the statistics and
the history are exactly as before — the mutation applied partially, not
atomically. -/
theorem c6_counterexample :
    (complete_item kv6 "b" 7).2 = true ∧
      dbGet (complete_item kv6 "b" 7).1.items "b" =
        some ({ item6 with status := "completed", completed_at := some 7 }) ∧
      (complete_item kv6 "b" 7).1.stats = kv6.stats ∧
      (complete_item kv6 "b" 7).1.history = kv6.history := by
  refine ⟨by decide, by decide, by decide, by decide⟩

/-- C6 (amended): on the key-value path the status write commits first;
when the wait-time computation fails (unparseable stored timestamp) the
entry is left completed while statistics and history are unchanged and
the call still reports success — the three effects are not atomic. -/
theorem c6_complete_partial_on_failure (s : KvState) (id : String) (now : Nat)
    (item : KvItem) (hf : dbGet s.items id = some item)
    (ht : item.timestamp = none) :
    complete_item s id now =
      ({ s with
           items := dbSet s.items id ({ item with status := "completed", completed_at := some now }) },
       true) := by
  simp [complete_item, hf, ht]

/-- C6 witness: the partial-application equation at the concrete store
kv6. -/
theorem c6_complete_partial_on_failure_witness :
    complete_item kv6 "b" 7 =
      ({ kv6 with
           items := dbSet kv6.items "b" ({ item6 with status := "completed", completed_at := some 7 }) },
       true) :=
  c6_complete_partial_on_failure kv6 "b" 7 item6 (by decide) rfl

/-- A statistics record with nonzero peak and served counts. -/
def st7 : Stats :=
  { total_served := 3, avg_wait_time := 2, peak_queue_length := 5, current_queue_length := 2 }

/-- A key-value state carrying those statistics. -/
def kv7 : KvState := { items := [], history := [], stats := st7 }

/-- C7 counterexample: the key-value reset_queue zeroes peak_queue_length
(claimed unchanged) and total_served (claimed reset only on opt-in, but
this path has no opt-in at all). -/
theorem c7_counterexample :
    (reset_queue kv7 0).stats.peak_queue_length = 0 ∧ kv7.stats.peak_queue_length = 5 ∧
      (reset_queue kv7 0).stats.total_served = 0 ∧ kv7.stats.total_served = 3 := by
  refine ⟨by decide, by decide, by decide, by decide⟩

/-- C7 (amended): every reset path zeroes current_queue_length, but the
paths disagree beyond that: the SQL per-business reset leaves
peak_queue_length and total_served unchanged (total_served is never
reset, opt-in or not); the key-value per-business reset honours the
opt-in for total_served while zeroing the peak and the average; the
key-value global reset zeroes every field unconditionally. -/
theorem c7_reset_fields (s : SqlState) (k : KvState) (st : Stats) (b : Bool) (now : Nat) :
    (resetSqlBiz s now).stats.current_queue_length = 0 ∧
      (resetSqlBiz s now).stats.peak_queue_length = s.stats.peak_queue_length ∧
      (resetSqlBiz s now).stats.total_served = s.stats.total_served ∧
      (resetKvBizStats st b).current_queue_length = 0 ∧
      (resetKvBizStats st b).peak_queue_length = 0 ∧
      (resetKvBizStats st b).total_served = (if b then 0 else st.total_served) ∧
      (reset_queue k now).stats = Stats.zero :=
  ⟨rfl, rfl, rfl, rfl, rfl, rfl, rfl⟩

/-- A completed entry, to be edited. -/
def item8 : KvItem :=
  { name := "C", phone := "p", details := "", priority := 3,
    status := "completed", timestamp := some 0, completed_at := some 5 }

/-- A store holding only that completed entry. -/
def kv8 : KvState :=
  { items := [("c", item8)], history := [], stats := Stats.zero }

/-- An update that renames the customer. -/
def upd8 : UpdData :=
  { name := some "Mallory", phone := none, details := none, priority := none,
    status := none, timestamp := none, completed_at := none }

/-- C8 counterexample: the generic update succeeds on the completed entry
and overwrites its name — a field other than the completion stamp and
notified flag — so completed entries are not immutable. -/
theorem c8_counterexample :
    (update_item kv8 "c" upd8).2 = true ∧
      (dbGet (update_item kv8 "c" upd8).1.items "c").map KvItem.name = some "Mallory" := by
  refine ⟨by decide, by decide⟩

/-- C8 (amended): update_item overwrites each provided field of any
existing entry with no status check, so completed entries can be edited
arbitrarily; and complete_item restamps completed_at on every invocation
against an existing entry, so the waiting-to-completed transition is not
once-only. -/
theorem c8_completed_not_immutable (s : KvState) (id : String) (d : UpdData)
    (it : KvItem) (now : Nat) (hf : dbGet s.items id = some it) :
    update_item s id d = ({ s with items := dbSet s.items id (applyUpd it d) }, true) ∧
      (dbGet (complete_item s id now).1.items id).map KvItem.completed_at =
        some (some now) := by
  constructor
  · simp [update_item, hf]
  · cases ht : it.timestamp <;> simp [complete_item, hf, ht, dbGet_dbSet]

/-- C8 witness: the amended statement at the concrete completed entry of
kv8. -/
theorem c8_completed_not_immutable_witness :
    update_item kv8 "c" upd8 =
        ({ kv8 with items := dbSet kv8.items "c" (applyUpd item8 upd8) }, true) ∧
      (dbGet (complete_item kv8 "c" 9).1.items "c").map KvItem.completed_at =
        some (some 9) :=
  c8_completed_not_immutable kv8 "c" upd8 item8 9 (by decide)

/-- C9 counterexample: the API path accepts a present-but-empty name —
the call succeeds and the entry is created, instead of failing with a
validation error and leaving the state unchanged. -/
theorem c9_counterexample :
    (add_to_queue sqlInit 1 (some "") "555" "" 3 0).2 = true ∧
      (add_to_queue sqlInit 1 (some "") "555" "" 3 0).1.items.length = 1 := by
  refine ⟨by decide, by decide⟩

/-- C9 (amended): the form path rejects an empty name with no state
change, but the API path rejects only a missing name key; an
empty-string name passes its check and the entry is created. -/
theorem c9_empty_name_validation (s : SqlState) (id : Nat) (phone details : String)
    (ts : Nat) (nf : Option String) (pr : Int) :
    join_queue s id "" phone details ts = (s, false) ∧
      ((add_to_queue s id nf phone details pr ts).2 = false ↔ nf = none) := by
  constructor
  · simp [join_queue]
  · cases nf <;> simp [add_to_queue]

/-- A representative completed-customer history record. -/
def histRec0 : HistRec :=
  { id := "x", name := "X", wait_time := some 1, timestamp := some 0, completed_at := some 1 }

/-- The history after n completions starting from the empty log, each
appended through the bounded-retention path of complete_item. -/
def histN : Nat → List HistRec
  | 0 => []
  | n + 1 => histAppend (histN n) histRec0

set_option maxRecDepth 8192 in
/-- C10: the retention check runs on the length before the append
(`if len(history) > 100` keep the last 99, then append), so after the
101st completion the log holds 101 records, although the code's own
comment says it keeps only the last 100; the next completion then drops
two records at once, leaving 100. -/
theorem c10_history_cap_off_by_one :
    (histN 101).length = 101 ∧ (histN 102).length = 100 := by
  refine ⟨by decide, by decide⟩

end SmartQueue
